import Mathlib

/-!
Verification development for the AGRI4401 data-collection repository.

The repository has two Python source files:
* `generate_qrcodes.py` — a CLI script that reads `points.csv` and writes one
  QR-code PNG per row, each encoding a deep link `<base>/?uid=<UID>`.
* `streamlit_geostatistics.py` — a Streamlit dashboard that, given a `point`
  query parameter, parses it with `int`, looks the row up by `PointID`, and
  renders the row's soil metrics; without a `point` parameter it shows an
  admin login / QR-generation interface.

Below, pandas rows are modelled as association lists from column names to
cell values, Python exceptions as an `Except` error type, and the Streamlit
render target as an inductive `View`.  Machine floats, which the program only
ever feeds terminating decimal literals, are modelled as exact decimals.
-/

set_option maxRecDepth 4000

/-- A cell value as pandas materialises it from a CSV: an integer column
entry, a float column entry `f m e` denoting the exact decimal
`m × 10 ^ (-e)` (every float the program reads or displays is such a
terminating decimal literal), or a string column entry. -/
inductive Value where
  | i : Int → Value
  | f : Int → Nat → Value
  | s : String → Value
deriving DecidableEq, Repr

/-- One pandas row, modelled as an association list from column name to cell
value (first binding wins, matching label lookup). -/
def Row : Type := List (String × Value)

instance : DecidableEq Row := inferInstanceAs (DecidableEq (List (String × Value)))

/-- The Python exceptions the two scripts can raise. -/
inductive PyErr where
  | keyError : String → PyErr
  | valueError : PyErr
  | indexError : PyErr
  | fileNotFoundError : PyErr
deriving DecidableEq, Repr

/-- `row[k]` on a pandas row / dict: the first value bound to label `k`, or a
`KeyError` when the label is absent. -/
def getRow (row : Row) (k : String) : Except PyErr Value :=
  match List.lookup k row with
  | some v => Except.ok v
  | none => Except.error (PyErr.keyError k)

/-- Streamlit query parameters: each key maps to the list of values it took
in the query string (`st.experimental_get_query_params`). -/
def QueryParams : Type := List (String × List String)

/-- `query_params.get(k, [None])[0]`-style access used in theorem statements:
the first value bound to `k`, when there is one. -/
def qget1 (params : QueryParams) (k : String) : Option String :=
  (List.lookup k params).bind List.head?

/-- Whitespace as stripped by Python `int()` around a numeric literal. -/
def isPySpace (c : Char) : Bool :=
  c == ' ' || c == '\t' || c == '\n' || c == '\r'

/-- The numeric value of a decimal digit character, if it is one. -/
def digitVal (c : Char) : Option Nat :=
  if '0' ≤ c ∧ c ≤ '9' then some (c.toNat - 48) else none

/-- Accumulate decimal digits; fails on the first non-digit. -/
def parseDigitsAux : List Char → Nat → Option Nat
  | [], acc => some acc
  | c :: r, acc =>
    match digitVal c with
    | some d => parseDigitsAux r (acc * 10 + d)
    | none => none

/-- Modelled from Python `int(s)` as the dashboard uses it on query values:
optional surrounding whitespace, an optional sign, then decimal digits;
`none` models the `ValueError` raised on anything else (digit-group
underscores and non-ASCII digits are not exercised by the program). -/
def pyInt? (s : String) : Option Int :=
  let l := (((s.data.dropWhile isPySpace).reverse.dropWhile isPySpace).reverse)
  match l with
  | [] => none
  | '+' :: r => if r = [] then none else (parseDigitsAux r 0).map Int.ofNat
  | '-' :: r => if r = [] then none else (parseDigitsAux r 0).map (fun n => -(n : Int))
  | r => (parseDigitsAux r 0).map Int.ofNat

/-- Left-pad a numeral with zeros to `n` characters. -/
def padZeros (s : String) (n : Nat) : String :=
  String.mk (List.replicate (n - s.length) '0') ++ s

/-- The canonical form of the decimal `m × 10 ^ (-e)`: strip trailing zeros
from the mantissa into the exponent, so that two decimals denote the same
rational exactly when their canonical forms are equal (e.g. `1.0` and `1`
both canonicalise to `(1, 0)`). -/
def canonDec (m : Int) : Nat → Int × Nat
  | 0 => (m, 0)
  | e + 1 => if m % 10 = 0 then canonDec (m / 10) e else (m, e + 1)

/-- Modelled from Python `format(x, ".<nd>f")` on the exact decimal values
the dashboard displays: round `m × 10 ^ (-e)` to `nd` fractional digits
(round half to even — no value the program displays hits a tie) and print
them.  All arithmetic is on integers; the claims only exercise nonnegative
values. -/
def fmtFixedDec (nd : Nat) (m : Int) (e : Nat) : String :=
  let v : Int := m * (10 : Int) ^ nd
  let d : Int := (10 : Int) ^ e
  let q : Int := v / d
  let r : Int := v % d
  let rounded : Int :=
    if 2 * r < d then q else if d < 2 * r then q + 1
    else if q % 2 = 0 then q else q + 1
  let sign := if rounded < 0 then "-" else ""
  let a := rounded.natAbs
  if nd = 0 then sign ++ toString a
  else sign ++ toString (a / 10 ^ nd) ++ "." ++ padZeros (toString (a % 10 ^ nd)) nd

/-- Python `f"{value:.ndf}"` on a cell value: numeric cells format, string
cells raise `ValueError` ("Unknown format code 'f'"). -/
def fmtFixed (nd : Nat) : Value → Except PyErr String
  | Value.i n => Except.ok (fmtFixedDec nd n 0)
  | Value.f m e => Except.ok (fmtFixedDec nd m e)
  | Value.s _ => Except.error PyErr.valueError

/-- Modelled from Python `str` on a float, for the terminating decimal
values the program displays (e.g. `str(20.5) = "20.5"`,
`str(25.0) = "25.0"`): print the canonical decimal with at least one
fractional digit. -/
def pyFloatRepr (m : Int) (e : Nat) : String :=
  let c := canonDec m e
  let sign := if c.1 < 0 then "-" else ""
  let a := c.1.natAbs
  match c.2 with
  | 0 => sign ++ toString a ++ ".0"
  | e' => sign ++ toString (a / 10 ^ e') ++ "." ++ padZeros (toString (a % 10 ^ e')) e'

/-- Python `str` / f-string interpolation of a cell value. -/
def pyStr : Value → String
  | Value.i n => toString n
  | Value.f m e => pyFloatRepr m e
  | Value.s s => s

/-- Python `s.replace("_", " ")` for the single-character pattern the
dashboard uses to build a metric label. -/
def replaceUnderscore (s : String) : String :=
  String.mk (s.data.map (fun c => if c == '_' then ' ' else c))

/- ## Record Store: `load_data` (dashboard) and `pd.read_csv` (CLI) -/

/-- `df.drop(columns=["Latitude", "Longitude"], errors="ignore")`, per row. -/
def dropLatLong (row : Row) : Row :=
  row.filter (fun p => !(p.1 == "Latitude" || p.1 == "Longitude"))

/-- `load_data` of `streamlit_geostatistics.py`: the file system is modelled
as the optional content of `data/points.csv`.  Present → the rows with the
coordinate columns dropped and no message; absent → the `st.error` message
and an empty data frame. -/
def load_data (file : Option (List Row)) : Option String × List Row :=
  match file with
  | some rows => (none, rows.map dropLatLong)
  | none =>
    (some "Data file not found: data/points.csv. Please add your 43-point CSV.", [])

/-- `pd.read_csv(csv_path)` as `main` of `generate_qrcodes.py` calls it:
no handler, so a missing file is an uncaught `FileNotFoundError`. -/
def cliLoad (file : Option (List Row)) : Except PyErr (List Row) :=
  match file with
  | some rows => Except.ok rows
  | none => Except.error PyErr.fileNotFoundError

/- ## Link Codec: URL construction -/

/-- Python `base.rstrip('/')`: remove every trailing `'/'`. -/
def rstripSlashL (l : List Char) : List Char :=
  (l.reverse.dropWhile (· == '/')).reverse

/-- `f"{base_url.rstrip('/')}/?uid={uid}"` from `generate_qrcodes.py`,
on character lists. -/
def buildURLCliL (base uid : List Char) : List Char :=
  rstripSlashL base ++ ('/' :: '?' :: 'u' :: 'i' :: 'd' :: '=' :: uid)

/-- `f"{base_url.rstrip('/')}/?uid={uid}"` from `generate_qrcodes.py`. -/
def build_url_cli (base uid : String) : String :=
  String.mk (buildURLCliL base.data uid.data)

/-- URL construction in `show_admin_interface` of the dashboard:
`f"{base_url}?point={point_id}"`, with `&param={param}` appended unless the
selected parameter is `"All"`. -/
def build_url_point (base : String) (pointId : Int) (param : String) : String :=
  if param = "All" then base ++ "?point=" ++ toString pointId
  else base ++ "?point=" ++ toString pointId ++ "&param=" ++ param

/-- Whether a URL already carries an explicit scheme. -/
def hasScheme (s : String) : Bool :=
  List.isPrefixOf "http://".data s.data || List.isPrefixOf "https://".data s.data

/- ## Link Codec: query-string parsing (spec side).
Modelled from the spec: "parsing the query string of `buildURL(base, id, {})`
back out" — standard URL query parsing: everything after the first `?`,
split on `&`, each pair split at its first `=`. -/

/-- The query string: everything after the first `?`. -/
def afterQ (l : List Char) : List Char :=
  (l.dropWhile (· != '?')).drop 1

/-- Split on every `&`, like Python `s.split('&')`. -/
def splitAmp : List Char → List (List Char)
  | [] => [[]]
  | c :: r =>
    if c == '&' then [] :: splitAmp r
    else
      match splitAmp r with
      | [] => [[c]]
      | h :: t => (c :: h) :: t

/-- Split a `key=value` chunk at its first `=`. -/
def pairOf (p : List Char) : List Char × List Char :=
  (p.takeWhile (· != '='), (p.dropWhile (· != '=')).drop 1)

/-- Modelled from the spec: parse a URL's query string and return the first
value bound to `key`. -/
def getQueryParamL (url key : List Char) : Option (List Char) :=
  List.lookup key ((splitAmp (afterQ url)).map pairOf)

/- ## Record Store: lookup -/

/-- The numeric content of a cell in canonical decimal form, under pandas'
numeric equality between integer and float columns (`1 == 1.0` is a match,
strings never match). -/
def idNum : Value → Option (Int × Nat)
  | Value.i n => some (n, 0)
  | Value.f m e => some (canonDec m e)
  | Value.s _ => none

/-- The numeric identifier of a row: the `PointID` cell, in canonical
decimal form. -/
def rowId (r : Row) : Option (Int × Nat) :=
  (List.lookup "PointID" r).bind idNum

/-- `df[df['PointID'] == point_id]` followed by `.iloc[0]` on a non-empty
filter: the first row whose `PointID` equals the integer `point_id`
(pandas compares numerically; a row without the column simply never
matches). -/
def lookupPoint (df : List Row) (pid : Int) : Option Row :=
  df.find? (fun r => decide (rowId r = some (pid, 0)))

/-- Modelled from the spec: "exact string-equality match on the identifier
field" — the first row whose identifier, as a string, equals the query
value verbatim. -/
def specLookupStr (df : List Row) (q : String) : Option Row :=
  df.find? (fun r => decide ((List.lookup "PointID" r).map pyStr = some q))

/- ## Dashboard rendering -/

/-- What the dashboard renders for one request. -/
inductive View where
  | detail : List (String × String) → View
  | pointNotFound : Int → View
  | invalidId : View
  | adminLogin : View
deriving DecidableEq, Repr

/-- `query_params.get("param", [None])[0]` in `show_point_detail`. -/
def selectedParam (params : QueryParams) : Except PyErr (Option String) :=
  match List.lookup "param" params with
  | none => Except.ok none
  | some vs =>
    match vs.head? with
    | some v => Except.ok (some v)
    | none => Except.error PyErr.indexError

/-- The five fixed metrics of the full detail view, rendered in source
order (`st.metric` labels and f-string formats from lines 88–94). -/
def fullMetrics (point : Row) : Except PyErr (List (String × String)) := do
  let clay ← getRow point "Clay_percent"
  let clayS := pyStr clay ++ "%"
  let p ← getRow point "P_ppm"
  let pS := pyStr p ++ " ppm"
  let k ← getRow point "K_ppm"
  let kS := pyStr k ++ " ppm"
  let nd ← getRow point "NDVI"
  let ndS ← fmtFixed 2 nd
  let ph ← getRow point "pH"
  let phS ← fmtFixed 1 ph
  pure [("Clay %", clayS), ("P (ppm)", pS), ("K (ppm)", kS), ("NDVI", ndS), ("pH", phS)]

/-- `show_point_detail` of the dashboard: header access to `PointID`, then
either the full metric grid (no `param`, empty `param`, or `"All"`) or the
single requested metric, whose row access `point[selected_param]` is
unguarded. -/
def show_point_detail (params : QueryParams) (point : Row) :
    Except PyErr (List (String × String)) := do
  let _pid ← getRow point "PointID"
  let sel ← selectedParam params
  match sel with
  | none => fullMetrics point
  | some sp =>
    if sp = "" ∨ sp = "All" then fullMetrics point
    else do
      let v ← getRow point sp
      let fmtS ←
        if sp = "NDVI" then fmtFixed 2 v
        else if sp = "pH" then fmtFixed 1 v
        else if sp = "Clay_percent" then Except.ok (pyStr v ++ "%")
        else Except.ok (pyStr v)
      pure [(replaceUnderscore sp, fmtS)]

/-- `main` of `streamlit_geostatistics.py` for a loaded data frame and a set
of query parameters: with a `point` parameter, parse it with `int` and show
the detail / not-found view (the `try` block catches exactly `ValueError`,
rendering "Invalid point ID"); without one, show the admin login. -/
def mainView (df : List Row) (params : QueryParams) : Except PyErr View :=
  match List.lookup "point" params with
  | none => Except.ok View.adminLogin
  | some vs =>
    let attempt : Except PyErr View :=
      match vs.head? with
      | none => Except.error PyErr.indexError
      | some s =>
        match pyInt? s with
        | none => Except.error PyErr.valueError
        | some pid =>
          match lookupPoint df pid with
          | some row => (show_point_detail params row).map View.detail
          | none => Except.ok (View.pointNotFound pid)
    match attempt with
    | Except.error PyErr.valueError => Except.ok View.invalidId
    | r => r

/- ## QR encoding -/

/-- The configuration the scripts hand to the `qrcode` library: optional
`version`, optional error-correction level (the library's numeric constant;
`none` means the library default), `box_size`, `border`, `fit`, and the two
`make_image` colours. -/
structure QRConfig where
  version : Option Nat
  errorCorrection : Option Nat
  boxSize : Nat
  border : Nat
  fitting : Bool
  fillColor : String
  backColor : String
deriving DecidableEq, Repr

/-- The fixed configuration of `generate_qr` in `generate_qrcodes.py`:
`QRCode(box_size=10, border=4)`, default error correction, `fit=True`,
black on white. -/
def cliQRConfig : QRConfig :=
  ⟨none, none, 10, 4, true, "black", "white"⟩

/-- The fixed configuration of `generate_qr_code` in the dashboard:
`version=1`, `ERROR_CORRECT_L` (numeric constant 1), `box_size=10`,
`border=4`, `fit=True`, black on white. -/
def dashQRConfig : QRConfig :=
  ⟨some 1, some 1, 10, 4, true, "black", "white"⟩

/-- `generate_qr` of `generate_qrcodes.py`, with the external `qrcode`
library abstracted as a function from configuration and data to an image:
the wrapper passes the fixed CLI configuration and the URL, nothing else. -/
def generate_qr {Img : Type} (lib : QRConfig → String → Img) (url : String) : Img :=
  lib cliQRConfig url

/-- `generate_qr_code` of the dashboard, same shape with its own fixed
configuration. -/
def generate_qr_code {Img : Type} (lib : QRConfig → String → Img) (url : String) : Img :=
  lib dashQRConfig url

/-- `main` of `generate_qrcodes.py`: read the CSV (uncaught on a missing
file) and, per row, hand the encoder the pair of output filename
`qr_uid_<uid>.png` (the `--out` directory join is elided) and deep link
`f"{base_url.rstrip('/')}/?uid={uid}"`; `row['UID']` is unguarded. -/
def cliMain (file : Option (List Row)) (base : String) :
    Except PyErr (List (String × String)) := do
  let df ← cliLoad file
  df.mapM (fun row => do
    let uid ← getRow row "UID"
    Except.ok ("qr_uid_" ++ pyStr uid ++ ".png", build_url_cli base (pyStr uid)))

/- ## Concrete stores used by the scenario claims -/

/-- The spec's scenario CSV row, with its `UID` identifier column. -/
def rawUID : Row :=
  [("UID", Value.s "A1"), ("MAP", Value.s "MapX"), ("POINT", Value.i 1),
   ("Clay_percent", Value.f 205 1), ("P_ppm", Value.i 25),
   ("K_ppm", Value.i 180), ("NDVI", Value.f 65 2), ("pH", Value.f 62 1)]

/-- The scenario row keyed the way the dashboard actually reads it
(`PointID` instead of `UID`, numeric identifier 1). -/
def rawPID : Row :=
  [("PointID", Value.i 1), ("MAP", Value.s "MapX"), ("POINT", Value.i 1),
   ("Clay_percent", Value.f 205 1), ("P_ppm", Value.i 25),
   ("K_ppm", Value.i 180), ("NDVI", Value.f 65 2), ("pH", Value.f 62 1)]

/-- The scenario store as the dashboard loads it from the `UID` CSV. -/
def dfUID : List Row := (load_data (some [rawUID])).2

/-- The scenario store as the dashboard loads it from the `PointID` CSV. -/
def dfPID : List Row := (load_data (some [rawPID])).2

deriving instance DecidableEq for Except

/- ## Claim theorems: concrete scenarios -/

/-- C1 (counterexample): with base `https://app.example/` and identifier
`A1`, `buildURL` yields `https://app.example/?uid=A1`, not the claimed
`https://app.example?uid=A1` — the code strips the trailing slashes and then
appends `/?uid=`, so the slash before the query string is kept. -/
theorem build_url_keeps_slash_cx :
    build_url_cli "https://app.example/" "A1" = "https://app.example/?uid=A1" ∧
    build_url_cli "https://app.example/" "A1" ≠ "https://app.example?uid=A1" := by
  exact ⟨rfl, by decide⟩

/-- C1 (amended): `buildURL` strips all trailing slashes from the base and
appends `/?uid=<id>`, so extra trailing slashes on the base never change the
URL, and the scenario base yields `https://app.example/?uid=A1`. -/
theorem build_url_slash_invariant :
    (∀ base uid : String, build_url_cli (base ++ "/") uid = build_url_cli base uid) ∧
    build_url_cli "https://app.example/" "A1" = "https://app.example/?uid=A1" := by
  constructor
  · intro base uid
    show String.mk (buildURLCliL (base ++ "/").data uid.data) = _
    have hdata : (base ++ "/").data = base.data ++ ['/'] := rfl
    have hstrip : rstripSlashL (base.data ++ ['/']) = rstripSlashL base.data := by
      unfold rstripSlashL
      rw [List.reverse_append]
      simp [List.dropWhile]
    unfold build_url_cli buildURLCliL
    rw [hdata, hstrip]
  · rfl

/-- C2 (counterexample): for the scheme-less base `app.example`, the URL the
CLI hands to the QR encoder is `app.example/?uid=A1` — no `https://` prefix
is ever added. -/
theorem build_url_no_scheme_cx :
    cliMain (some [rawUID]) "app.example" =
      Except.ok [("qr_uid_A1.png", "app.example/?uid=A1")] ∧
    hasScheme "app.example/?uid=A1" = false := by
  exact ⟨rfl, rfl⟩

/-- C4 (counterexample): the CLI variant does not treat a missing CSV as an
empty dataset with a message — `pd.read_csv` has no handler there, so the
`FileNotFoundError` propagates out of `main`. -/
theorem cli_load_uncaught_cx :
    cliMain none "https://app.example" = Except.error PyErr.fileNotFoundError ∧
    cliMain none "https://app.example" ≠ Except.ok [] := by
  exact ⟨rfl, by decide⟩

/-- C4 (amended): the dashboard variant surfaces the user-visible message
and returns an empty record sequence when the CSV is absent, while the CLI
variant propagates `FileNotFoundError` uncaught for every base URL. -/
theorem load_missing_file :
    load_data none =
      (some "Data file not found: data/points.csv. Please add your 43-point CSV.", []) ∧
    ∀ base : String, cliMain none base = Except.error PyErr.fileNotFoundError := by
  exact ⟨rfl, fun _ => rfl⟩

/-- C5 (counterexample): on the spec's scenario CSV (identifier column
`UID`, row `A1,...`), a request with query `uid=A1` never reaches a detail
view — the dashboard keys on the `point` parameter, so it shows the admin
login instead of the claimed metric report. -/
theorem uid_query_admin_cx :
    mainView dfUID [("uid", ["A1"])] = Except.ok View.adminLogin ∧
    mainView dfUID [("uid", ["A1"])] ≠
      Except.ok (View.detail [("Clay %", "20.5%"), ("P (ppm)", "25 ppm"),
        ("K (ppm)", "180 ppm"), ("NDVI", "0.65"), ("pH", "6.2")]) := by
  exact ⟨rfl, by decide⟩

/-- C5 (amended): for the scenario row keyed by the column the dashboard
actually reads (`PointID` = 1, same metric cells), the detail view for query
`point=1` reports Clay 20.5%, P 25 ppm, K 180 ppm, NDVI 0.65 and pH 6.2. -/
theorem point_detail_scenario :
    mainView dfPID [("point", ["1"])] =
      Except.ok (View.detail [("Clay %", "20.5%"), ("P (ppm)", "25 ppm"),
        ("K (ppm)", "180 ppm"), ("NDVI", "0.65"), ("pH", "6.2")]) := by
  rfl

/-- C7 (counterexample): the identifier is not percent-encoded, so it does
not round-trip through the query string in general: for `id = "A&B"` the
parser recovers only `"A"`. -/
theorem roundtrip_amp_cx :
    getQueryParamL (buildURLCliL "https://app.example".data "A&B".data) "uid".data =
      some "A".data ∧
    some "A".data ≠ some "A&B".data := by
  exact ⟨rfl, by decide⟩

/-- C3 (counterexample): lookup is not an exact string-equality match on the
identifier: the query value `"01"` is string-equal to no stored identifier
(the store's only identifier prints as `"1"`), yet the dashboard parses it
with `int` and serves the full detail view instead of a not-found result. -/
theorem lookup_not_string_match_cx :
    specLookupStr dfPID "01" = none ∧
    mainView dfPID [("point", ["01"])] =
      Except.ok (View.detail [("Clay %", "20.5%"), ("P (ppm)", "25 ppm"),
        ("K (ppm)", "180 ppm"), ("NDVI", "0.65"), ("pH", "6.2")]) := by
  exact ⟨rfl, rfl⟩

/-- C10: the secondary `param` filter is unguarded: with a valid `point` and
the non-column value `param=Bogus`, the public query-string interface drives
`point[selected_param]` into an uncaught `KeyError` instead of a
user-visible message. -/
theorem detail_bogus_param_keyerror :
    mainView dfPID [("point", ["1"]), ("param", ["Bogus"])] =
      Except.error (PyErr.keyError "Bogus") := by
  rfl

/-- C9: QR encoding is deterministic and its configuration is fixed rather
than caller-supplied: with the external `qrcode` library modelled as any
pure encoder, both wrappers send it a closed constant configuration, so two
calls on identical URLs produce identical images. -/
theorem encode_deterministic {Img : Type} (lib : QRConfig → String → Img)
    (u v : String) (h : u = v) :
    generate_qr lib u = generate_qr lib v ∧
    generate_qr_code lib u = generate_qr_code lib v ∧
    generate_qr lib u = lib cliQRConfig u ∧
    generate_qr_code lib u = lib dashQRConfig u := by
  subst h
  exact ⟨rfl, rfl, rfl, rfl⟩

/-- C9 witness: the determinism theorem applied to a concrete encoder and
URL. -/
theorem encode_deterministic_wit :
    generate_qr (fun _ s => s.length) "https://app.example/?uid=A1" =
      (fun (_ : QRConfig) (s : String) => s.length) cliQRConfig "https://app.example/?uid=A1" :=
  (encode_deterministic (fun _ s => s.length) _ _ rfl).2.2.1

/- ## Helper lemmas -/

/-- `dropWhile` skips a whole block on which the predicate holds. -/
theorem dropWhile_append_of_all {α : Type} (p : α → Bool) (l₁ l₂ : List α)
    (h : ∀ a ∈ l₁, p a = true) :
    (l₁ ++ l₂).dropWhile p = l₂.dropWhile p := by
  induction l₁ with
  | nil => rfl
  | cons a t ih =>
    simp only [List.cons_append, List.dropWhile_cons, h a (List.mem_cons_self a t)]
    exact ih (fun x hx => h x (List.mem_cons_of_mem a hx))

/-- A chunk without `&` is not split. -/
theorem splitAmp_eq_single (l : List Char) (h : ('&' : Char) ∉ l) :
    splitAmp l = [l] := by
  induction l with
  | nil => rfl
  | cons c t ih =>
    have hc : ¬ ((c == '&') = true) := by
      simp only [beq_iff_eq]
      intro e
      exact h (e ▸ List.mem_cons_self c t)
    have ht : ('&' : Char) ∉ t := fun m => h (List.mem_cons_of_mem c m)
    simp only [splitAmp, if_neg hc, ih ht]

/-- Stripping trailing slashes leaves an initial segment of the string. -/
theorem rstripSlashL_pre (l : List Char) : rstripSlashL l <+: l := by
  refine ⟨(l.reverse.takeWhile (· == '/')).reverse, ?_⟩
  unfold rstripSlashL
  calc (l.reverse.dropWhile (· == '/')).reverse ++ (l.reverse.takeWhile (· == '/')).reverse
      = ((l.reverse.takeWhile (· == '/')) ++ (l.reverse.dropWhile (· == '/'))).reverse := by
        rw [List.reverse_append]
    _ = l.reverse.reverse := by rw [List.takeWhile_append_dropWhile]
    _ = l := List.reverse_reverse l

/-- The earliest hit of `find?` is preceded only by misses. -/
theorem find?_first {α : Type} (p : α → Bool) (l : List α) (a : α)
    (h : l.find? p = some a) :
    ∃ l₁ l₂, l = l₁ ++ a :: l₂ ∧ ∀ x ∈ l₁, p x = false := by
  induction l with
  | nil => simp at h
  | cons b t ih =>
    rcases hb : p b with _ | _
    · rw [List.find?_cons_of_neg _ (by simp [hb])] at h
      obtain ⟨l₁, l₂, rfl, hall⟩ := ih h
      refine ⟨b :: l₁, l₂, rfl, ?_⟩
      intro x hx
      rcases List.mem_cons.mp hx with rfl | hx'
      · exact hb
      · exact hall x hx'
    · rw [List.find?_cons_of_pos _ (by simp [hb])] at h
      cases h
      exact ⟨[], t, rfl, by simp⟩

/- ## Claim theorems: general statements -/

/-- C2 (amended): `buildURL` never adds a scheme — whenever the base does
not begin with `http` (so carries neither an `http://` nor an `https://`
scheme), the URL handed to the QR encoder does not begin with `http`
either. -/
theorem build_url_no_scheme_added (base uid : List Char)
    (h : ¬ ("http".data <+: base)) :
    ¬ ("http".data <+: buildURLCliL base uid) := by
  intro hpre
  apply h
  have hdata : "http".data = ['h', 't', 't', 'p'] := rfl
  rw [hdata] at *
  have key : ['h', 't', 't', 'p'] <+: rstripSlashL base := by
    obtain ⟨t, ht⟩ := hpre
    unfold buildURLCliL at ht
    rcases ha : rstripSlashL base with _ | ⟨c1, _ | ⟨c2, _ | ⟨c3, _ | ⟨c4, rest⟩⟩⟩⟩ <;>
      rw [ha] at ht <;> simp only [List.cons_append, List.nil_append] at ht
    · injection ht.symm with e _
      exact absurd e (by decide)
    · injection ht.symm with _ ht2
      injection ht2 with e _
      exact absurd e (by decide)
    · injection ht.symm with _ ht2
      injection ht2 with _ ht3
      injection ht3 with e _
      exact absurd e (by decide)
    · injection ht.symm with _ ht2
      injection ht2 with _ ht3
      injection ht3 with _ ht4
      injection ht4 with e _
      exact absurd e (by decide)
    · injection ht.symm with e1 ht2
      injection ht2 with e2 ht3
      injection ht3 with e3 ht4
      injection ht4 with e4 _
      exact ⟨rest, by rw [e1, e2, e3, e4]; rfl⟩
  exact key.trans (rstripSlashL_pre base)

/-- C2 witness: the scheme-less base `app.example` with identifier `A1`. -/
theorem build_url_no_scheme_added_wit :
    ¬ ("http".data <+: buildURLCliL "app.example".data "A1".data) :=
  build_url_no_scheme_added "app.example".data "A1".data (by decide)

/-- C7 (amended): the identifier round-trips through the (unencoded) query
string whenever the base contains no `?` and the identifier contains no
`&`: parsing the query string of the built URL recovers the identifier
unchanged.  (The repository has no percent-encoding variant.) -/
theorem roundtrip_uid (base uid : List Char)
    (hb : ('?' : Char) ∉ base) (hu : ('&' : Char) ∉ uid) :
    getQueryParamL (buildURLCliL base uid) "uid".data = some uid := by
  have hb' : ('?' : Char) ∉ rstripSlashL base := fun m =>
    hb ((rstripSlashL_pre base).sublist.subset m)
  have h1 : afterQ (buildURLCliL base uid) = 'u' :: 'i' :: 'd' :: '=' :: uid := by
    unfold afterQ buildURLCliL
    rw [dropWhile_append_of_all _ _ _ (fun c hc => by
      simp only [bne_iff_ne, ne_eq]
      exact fun e => hb' (e ▸ hc))]
    rfl
  unfold getQueryParamL
  rw [h1]
  rw [splitAmp_eq_single _ (by
    intro m
    rcases List.mem_cons.mp m with e | m'
    · exact absurd e (by decide)
    rcases List.mem_cons.mp m' with e | m''
    · exact absurd e (by decide)
    rcases List.mem_cons.mp m'' with e | m3
    · exact absurd e (by decide)
    rcases List.mem_cons.mp m3 with e | m4
    · exact absurd e (by decide)
    exact hu m4)]
  simp [pairOf, List.lookup]

/-- C7 witness: base `https://app.example`, identifier `A1`. -/
theorem roundtrip_uid_wit :
    getQueryParamL (buildURLCliL "https://app.example".data "A1".data) "uid".data =
      some "A1".data :=
  roundtrip_uid "https://app.example".data "A1".data (by decide) (by decide)

/-- C3 (amended): lookup matches the integer-parsed query value numerically
against the `PointID` field: a hit is the first matching row (duplicates
included), a miss is exactly the absence of any matching row, and a parsed
identifier absent from the store yields the `pointNotFound` message, never
an unrelated error. -/
theorem lookup_first_match (df : List Row) (pid : Int) (params : QueryParams) (s : String) :
    (∀ r, lookupPoint df pid = some r →
      r ∈ df ∧ rowId r = some (pid, 0) ∧
      ∃ l₁ l₂, df = l₁ ++ r :: l₂ ∧ ∀ a ∈ l₁, rowId a ≠ some (pid, 0)) ∧
    (lookupPoint df pid = none ↔ ∀ r ∈ df, rowId r ≠ some (pid, 0)) ∧
    (qget1 params "point" = some s → pyInt? s = some pid →
      lookupPoint df pid = none →
      mainView df params = Except.ok (View.pointNotFound pid)) := by
  refine ⟨?_, ?_, ?_⟩
  · intro r h
    have hmem := List.mem_of_find?_eq_some h
    have hp := List.find?_some h
    simp only [decide_eq_true_eq] at hp
    obtain ⟨l₁, l₂, he, hall⟩ := find?_first _ _ _ h
    refine ⟨hmem, hp, l₁, l₂, he, ?_⟩
    intro a ha
    have := hall a ha
    simpa [decide_eq_false_iff_not] using this
  · unfold lookupPoint
    simp [List.find?_eq_none]
  · intro h1 h2 h3
    unfold qget1 at h1
    obtain ⟨vs, hvs, hhd⟩ := Option.bind_eq_some.mp h1
    unfold mainView
    simp only [hvs, hhd, h2, h3]

/-- C3 witness: the amended lookup contract applied at identifier 5, absent
from the scenario store. -/
theorem lookup_first_match_wit :
    mainView dfPID [("point", ["5"])] = Except.ok (View.pointNotFound 5) :=
  (lookup_first_match dfPID 5 [("point", ["5"])] "5").2.2 (by decide) (by decide) (by decide)

/-- C6: when the stored identifiers are unique, looking up a stored row's
own identifier returns that row itself. -/
theorem lookup_returns_self (df : List Row) (hU : (df.map rowId).Nodup)
    (r : Row) (hr : r ∈ df) (pid : Int) (hid : rowId r = some (pid, 0)) :
    lookupPoint df pid = some r := by
  induction df with
  | nil => cases hr
  | cons b t ih =>
    rw [List.map_cons, List.nodup_cons] at hU
    rcases List.mem_cons.mp hr with rfl | hrt
    · unfold lookupPoint
      rw [List.find?_cons_of_pos _ (by simp [hid])]
    · have hb : rowId b ≠ some (pid, 0) := by
        intro e
        apply hU.1
        rw [e, ← hid]
        exact List.mem_map_of_mem rowId hrt
      unfold lookupPoint
      rw [List.find?_cons_of_neg _ (by simp [hb])]
      exact ih hU.2 hrt

/-- C6 witness: a two-row store with distinct identifiers. -/
theorem lookup_returns_self_wit :
    lookupPoint [[("PointID", Value.i 1)], [("PointID", Value.i 2)]] 2 =
      some [("PointID", Value.i 2)] :=
  lookup_returns_self [[("PointID", Value.i 1)], [("PointID", Value.i 2)]]
    (by decide) [("PointID", Value.i 2)] (by decide) 2 (by decide)

/-- C8: a non-numeric `point` query value makes the dashboard report the
user-visible "Invalid point ID" view; no record lookup is performed (the
outcome is the same for every store) and no other exception escapes. -/
theorem invalid_point_no_lookup (df df' : List Row) (params : QueryParams) (s : String)
    (h1 : qget1 params "point" = some s) (h2 : pyInt? s = none) :
    mainView df params = Except.ok View.invalidId ∧
    mainView df params = mainView df' params := by
  unfold qget1 at h1
  obtain ⟨vs, hvs, hhd⟩ := Option.bind_eq_some.mp h1
  constructor
  · unfold mainView
    simp only [hvs, hhd, h2]
  · unfold mainView
    simp only [hvs, hhd, h2]

/-- C8 witness: the non-numeric query value `abc` on the scenario store. -/
theorem invalid_point_no_lookup_wit :
    mainView dfPID [("point", ["abc"])] = Except.ok View.invalidId ∧
    mainView dfPID [("point", ["abc"])] = mainView [] [("point", ["abc"])] :=
  invalid_point_no_lookup dfPID [] [("point", ["abc"])] "abc" (by decide) (by decide)
